import Mathlib

/-!
Verification of the SpiderMonkey JIT stack-frame walker and on-stack value
recovery engine (`js/src/jit/JitFrames.cpp`, `jit/BaselineJIT.h`).

The development is a shallow embedding: the C++ data layout is modelled by
Lean structures, stack memory by functions from addresses to frame
descriptors, and each C++ routine the claims mention is translated into an
executable Lean function following the source control flow.  Theorems about
these functions settle the specification claims.
-/

namespace JitVerify

/-! ## Frame type tags (enum FrameType) -/

/-- The frame type tags stored in a frame descriptor (enum `FrameType`). -/
inductive FrameType where
  | JitFrame_Entry
  | JitFrame_BaselineJS
  | JitFrame_IonJS
  | JitFrame_Bailout
  | JitFrame_BaselineStub
  | JitFrame_Rectifier
  | JitFrame_Unwound_BaselineJS
  | JitFrame_Unwound_IonJS
  | JitFrame_Unwound_BaselineStub
  | JitFrame_Unwound_Rectifier
  | JitFrame_Exit
deriving DecidableEq, Repr

open FrameType

/-! ## Frame layout catalogue (SizeOfFramePrefix)

The per-layout header sizes (`EntryFrameLayout::Size()` and friends) are
platform constants defined outside the sampled sources, so they are carried
as parameters in a structure. -/

/-- The fixed header sizes of each frame layout; these are compile-time
platform constants (`XxxFrameLayout::Size()`), kept abstract here. -/
structure FrameSizes where
  entrySize : Nat
  jitSize : Nat
  baselineStubSize : Nat
  rectifierSize : Nat
  ionUnwoundRectifierSize : Nat
  exitSize : Nat

/-- Embeds `SizeOfFramePrefix` (JitFrames.cpp lines 274-297): the fixed
prefix size of a frame, by type tag.  The `default: MOZ_CRASH` arm (hit for
`JitFrame_Unwound_BaselineStub`) is modelled as `none`. -/
def sizeOfFrameHeader (sz : FrameSizes) : FrameType → Option Nat
  | JitFrame_Entry => some sz.entrySize
  | JitFrame_BaselineJS => some sz.jitSize
  | JitFrame_IonJS => some sz.jitSize
  | JitFrame_Bailout => some sz.jitSize
  | JitFrame_Unwound_BaselineJS => some sz.jitSize
  | JitFrame_Unwound_IonJS => some sz.jitSize
  | JitFrame_BaselineStub => some sz.baselineStubSize
  | JitFrame_Rectifier => some sz.rectifierSize
  | JitFrame_Unwound_Rectifier => some sz.ionUnwoundRectifierSize
  | JitFrame_Exit => some sz.exitSize
  | JitFrame_Unwound_BaselineStub => none

/-! ## Frame descriptors and the frame iterator -/

/-- What a frame physically stores that the walker reads through
`CommonFrameLayout`: the predecessor's type tag and locals size (the
descriptor) and the return address. -/
structure FrameDescriptor where
  prevType : FrameType
  prevFrameLocalSize : Nat
  returnAddress : Nat
deriving DecidableEq, Repr

/-- The native stack, modelled as a map from frame addresses to the
descriptor words stored at that address. -/
def StackMem : Type := Nat → FrameDescriptor

/-- The mutable state of a `JitFrameIterator`: current frame address,
current frame type, cached return address, frame size and the lazily
recomputed safepoint-index pointer (`cachedSafepointIndex_`, `none` =
nullptr). -/
structure IterState where
  current : Nat
  typ : FrameType
  returnAddressToFp : Nat
  frameSize : Nat
  cachedSafepointIndex : Option Nat
deriving DecidableEq, Repr

/-- `JitFrameIterator::fp()` returns the raw address of the current frame
(`current_`); the accessor lives in a header outside the sampled sources
but its meaning is fixed by every use in JitFrames.cpp (e.g. `spillBase`,
`jsFrame`, the `rfe->stackPointer = iter.fp()` line). -/
def IterState.fp (it : IterState) : Nat := it.current

/-- Modelled from the spec: `JitFrameIterator::isFakeExitFrame` is declared
in a header not part of the sources.  Per spec §4.3 a "fake" exit frame is
one synthesized solely so stack-walking invariants hold; `EnsureExitFrame`
(JitFrames.cpp lines 896-936, in the sources) synthesizes them by
rewriting the stored predecessor tag to one of the `Unwound_*` variants
(or leaving an `Entry` predecessor untouched).  A frame is therefore fake
exactly when its stored predecessor tag is an unwound tag, or when it is an
exit-typed frame whose predecessor is the entry frame. -/
def isFakeExitFrame (mem : StackMem) (it : IterState) : Bool :=
  let pt := (mem it.current).prevType
  pt = JitFrame_Unwound_Rectifier ||
  pt = JitFrame_Unwound_BaselineJS ||
  pt = JitFrame_Unwound_BaselineStub ||
  pt = JitFrame_Unwound_IonJS ||
  (pt = JitFrame_Entry && it.typ = JitFrame_Exit)

/-- Embeds `JitFrameIterator::prevFp` (JitFrames.cpp lines 299-313): the
predecessor frame's byte address is the current address plus the fixed
header size for the current frame type (with the fake-exit-frame quick
fix, which substitutes the scripted `JitFrameLayout` size) plus the
descriptor's recorded locals size.  `none` models the `MOZ_CRASH` arm of
`SizeOfFramePrefix`. -/
def prevFp (sz : FrameSizes) (mem : StackMem) (it : IterState) : Option Nat :=
  let headerSize :=
    if isFakeExitFrame mem it then sizeOfFrameHeader sz JitFrame_IonJS
    else sizeOfFrameHeader sz it.typ
  headerSize.map fun s => it.current + s + (mem it.current).prevFrameLocalSize

/-- The unwound-tag translation performed by `operator++` (JitFrames.cpp
lines 334-339): `Unwound_IonJS`, `Unwound_BaselineJS` and
`Unwound_BaselineStub` revert to the plain tags; every other tag (note:
including `Unwound_Rectifier`) is kept as stored. -/
def translateUnwound : FrameType → FrameType
  | JitFrame_Unwound_IonJS => JitFrame_IonJS
  | JitFrame_Unwound_BaselineJS => JitFrame_BaselineJS
  | JitFrame_Unwound_BaselineStub => JitFrame_BaselineStub
  | t => t

/-- Embeds `JitFrameIterator::operator++` (JitFrames.cpp lines 315-345).
The step records the caller's locals size, invalidates the cached
safepoint index, and either terminates on the entry frame (leaving
`current_` unchanged, since the entry and first frames overlap) or moves
`current_` to `prevFp()` and adopts the translated stored predecessor
tag.  `none` models the `MOZ_CRASH` reachable through `SizeOfFramePrefix`. -/
def stepIter (sz : FrameSizes) (mem : StackMem) (it : IterState) : Option IterState :=
  let frameSize' := (mem it.current).prevFrameLocalSize
  if (mem it.current).prevType = JitFrame_Entry then
    some { it with frameSize := frameSize', cachedSafepointIndex := none,
                   typ := JitFrame_Entry }
  else
    (prevFp sz mem it).map fun prev =>
      { current := prev,
        typ := translateUnwound (mem it.current).prevType,
        returnAddressToFp := (mem it.current).returnAddress,
        frameSize := frameSize',
        cachedSafepointIndex := none }

/-! ## Invalidation check (JitFrameIterator::checkInvalidation) -/

/-- The two execution modes (enum `ExecutionMode`) distinguished by the
iterator. -/
inductive ExecutionMode where
  | SequentialExecution
  | ParallelExecution
deriving DecidableEq, Repr

open ExecutionMode

/-- An optimized compiled artifact (`IonScript`).  `codeStart`/`codeSize`
describe its immutable native code block; `id` stands for the C++ object
identity.  The containment query is modelled from the spec ("Native Code
Object ... supports a query: does address X fall inside me", §3), mirroring
the in-source `BaselineScript::containsCodeAddress` shape. -/
structure IonScript where
  id : Nat
  codeStart : Int
  codeSize : Nat
deriving DecidableEq, Repr

/-- Modelled from the spec: `IonScript::containsReturnAddress` is declared
outside the sampled sources; it asks whether the address falls inside the
artifact's native code block (inclusive bounds, as in the in-source
`BaselineScript::containsCodeAddress`). -/
def IonScript.containsReturnAddress (ion : IonScript) (addr : Int) : Bool :=
  ion.codeStart ≤ addr && addr ≤ ion.codeStart + ion.codeSize

/-- The script's view of its compiled artifacts: `ionScript` is the current
optimized artifact for sequential mode (`none` = `!hasIonScript()`),
`parallelIonScript` the one for parallel mode. -/
structure ScriptIon where
  ionScript : Option IonScript
  parallelIonScript : Option IonScript
deriving Repr

/-- The instruction-stream reads done by `checkInvalidation`: reading the
`int32` stored immediately before the return address, and
`Assembler::GetPointer` at a computed address. -/
structure AsmMem where
  readInt32 : Int → Int
  readPtr : Int → IonScript

/-- The slice of iterator/activation state that `checkInvalidation` and the
artifact selection of `MarkIonJSFrame` consult: the execution mode, whether
the iterator sits on a bailout frame (in which case the activation's
bailout data holds the frame's artifact), the callee's script, and the
frame's return address. -/
structure InvFrameCtx where
  mode : ExecutionMode
  isBailout : Bool
  bailoutIonScript : IonScript
  script : ScriptIon
  returnAddr : Int

/-- Embeds `JitFrameIterator::checkInvalidation(IonScript **)`
(JitFrames.cpp lines 143-172).  Returns the boolean result paired with the
out-parameter (`none` models an untouched `*ionScriptOut`).  For a bailout
frame, the artifact comes from the activation's bailout data and the check
compares it with the script's current artifact.  Otherwise, parallel mode
reports no invalidation; sequential mode reports invalidation when the
script has no current artifact or its current artifact's code does not
contain the return address, and then recovers the original artifact by
reading the int32 offset stored immediately before the return address and
fetching the pointer at that offset from the return address. -/
def checkInvalidation (asm : AsmMem) (f : InvFrameCtx) : Bool × Option IonScript :=
  if f.isBailout then
    match f.script.ionScript with
    | none => (true, some f.bailoutIonScript)
    | some cur => (decide (cur ≠ f.bailoutIonScript), some f.bailoutIonScript)
  else
    let invalidated :=
      match f.mode with
      | ParallelExecution => false
      | SequentialExecution =>
        match f.script.ionScript with
        | none => true
        | some cur => !cur.containsReturnAddress f.returnAddr
    if !invalidated then (false, none)
    else
      let invalidationDataOffset := asm.readInt32 (f.returnAddr - 4)
      let ion := asm.readPtr (f.returnAddr + invalidationDataOffset)
      (true, some ion)

/-- Embeds `JitFrameIterator::ionScriptFromCalleeToken` (JitFrames.cpp
lines 2225-2239): the artifact the callee currently holds, which depends on
the execution mode. -/
def ionScriptFromCalleeToken (f : InvFrameCtx) : Option IonScript :=
  match f.mode with
  | SequentialExecution => f.script.ionScript
  | ParallelExecution => f.script.parallelIonScript

/-- The artifact choices made by the GC marking walk for one optimized
frame. -/
structure MarkIonArtifacts where
  tracedIonScript : Option IonScript
  safepointIonScript : Option IonScript
deriving DecidableEq, Repr

/-- Embeds the artifact selection of `MarkIonJSFrame` (JitFrames.cpp lines
1023-1037): if `checkInvalidation` reports the frame invalidated, the
recovered stale artifact is explicitly traced (`IonScript::Trace`) and is
also the artifact whose safepoint table is consulted
(`ionScript->getSafepointIndex(frame.returnAddressToFp())`); otherwise no
artifact is explicitly traced and the callee's current artifact supplies
the safepoint data. -/
def markIonJSFrameArtifacts (asm : AsmMem) (f : InvFrameCtx) : MarkIonArtifacts :=
  let r := checkInvalidation asm f
  if r.1 then
    { tracedIonScript := r.2, safepointIonScript := r.2 }
  else
    { tracedIonScript := none, safepointIonScript := ionScriptFromCalleeToken f }

/-! ## Torn (tag,payload) values on the NUNBOX32 encoding -/

/-- The value layout of the two-word (tag,payload) encoding
(`jsval_layout` under `JS_NUNBOX32`): a 32-bit type tag and a 32-bit
payload.  `IMPL_TO_JSVAL`/`JSVAL_TO_IMPL` are bitwise identities, so the
logical value is the pair itself. -/
structure JSValLayout where
  tag : Nat
  payload : Nat
deriving DecidableEq, Repr

/-- The allocation kinds `ReadAllocation`/`WriteAllocation` dispatch on
(JitFrames.cpp lines 961-976 and 997-1014): a general register, a stack
slot, or an argument slot. -/
inductive LAllocation where
  | generalReg (reg : Nat)
  | stackSlot (slot : Nat)
  | argument (index : Nat)
deriving DecidableEq, Repr

/-- The machine/frame locations the nunbox marking walk reads and writes:
the spilled general registers (`frame.machineState()`), the frame's stack
slots (`slotRef`) and the argument area (`argv`). -/
structure NunboxState where
  regs : Nat → Nat
  slots : Nat → Nat
  args : Nat → Nat

/-- Embeds `ReadAllocation` (JitFrames.cpp lines 961-976). -/
def ReadAllocation (st : NunboxState) : LAllocation → Nat
  | .generalReg r => st.regs r
  | .stackSlot s => st.slots s
  | .argument i => st.args i

/-- Embeds `WriteAllocation` (JitFrames.cpp lines 997-1014): writes the
word to the one location the allocation denotes, leaving every other
location untouched. -/
def WriteAllocation (st : NunboxState) (a : LAllocation) (value : Nat) : NunboxState :=
  match a with
  | .generalReg r => { st with regs := fun x => if x = r then value else st.regs x }
  | .stackSlot s => { st with slots := fun x => if x = s then value else st.slots x }
  | .argument i => { st with args := fun x => if x = i then value else st.args x }

/-- Embeds the `JS_NUNBOX32` torn-value loop body of `MarkIonJSFrame`
(JitFrames.cpp lines 1063-1078): assemble the logical value from the tag
bits and the payload bits read from the two allocations, hand it to the
collector (`markValueRoot` models `gc::MarkValueRoot`, which may relocate
it), and if the collector changed the value, write back only the payload
half through `WriteAllocation` on the payload allocation.  Returns the
(possibly relocated) value and the updated state. -/
def markNunboxSlotPair (markValueRoot : JSValLayout → JSValLayout) (st : NunboxState)
    (typeAlloc payloadAlloc : LAllocation) : JSValLayout × NunboxState :=
  let layout : JSValLayout :=
    { tag := ReadAllocation st typeAlloc, payload := ReadAllocation st payloadAlloc }
  let v := markValueRoot layout
  if v ≠ layout then
    (v, WriteAllocation st payloadAlloc v.payload)
  else
    (v, st)

/-- The four untyped (tag,payload pair) allocation modes of the snapshot
engine on `JS_NUNBOX32`: the first location holds the tag, the second the
payload. -/
inductive UntypedNunboxAlloc where
  | UNTYPED_REG_REG (reg reg2 : Nat)
  | UNTYPED_REG_STACK (reg : Nat) (stackOffset2 : Nat)
  | UNTYPED_STACK_REG (stackOffset : Nat) (reg2 : Nat)
  | UNTYPED_STACK_STACK (stackOffset stackOffset2 : Nat)
deriving DecidableEq, Repr

/-- The machine/frame state a `SnapshotIterator` reads from: the recorded
register locations (`machine_`) and the frame's stack slots
(`fromStack`/`WriteFrameSlot` on `fp_`). -/
structure SnapState where
  regs : Nat → Nat
  stack : Nat → Nat

/-- Embeds the `JS_NUNBOX32` untyped arms of
`SnapshotIterator::allocationValue` (JitFrames.cpp lines 1851-1882): the
logical value is assembled from the tag bits at the first location and the
payload bits at the second. -/
def allocationValueUntyped (st : SnapState) : UntypedNunboxAlloc → JSValLayout
  | .UNTYPED_REG_REG r r2 => { tag := st.regs r, payload := st.regs r2 }
  | .UNTYPED_REG_STACK r s2 => { tag := st.regs r, payload := st.stack s2 }
  | .UNTYPED_STACK_REG s r2 => { tag := st.stack s, payload := st.regs r2 }
  | .UNTYPED_STACK_STACK s s2 => { tag := st.stack s, payload := st.stack s2 }

/-- Embeds the `JS_NUNBOX32` untyped arms of
`SnapshotIterator::writeAllocationValuePayload` (JitFrames.cpp lines
1972-1981): only the payload (second) location is written with the
value's payload bits; the tag location is never written. -/
def writeAllocationValuePayloadUntyped (st : SnapState) (a : UntypedNunboxAlloc)
    (v : JSValLayout) : SnapState :=
  match a with
  | .UNTYPED_REG_REG _ r2 =>
      { st with regs := fun x => if x = r2 then v.payload else st.regs x }
  | .UNTYPED_STACK_REG _ r2 =>
      { st with regs := fun x => if x = r2 then v.payload else st.regs x }
  | .UNTYPED_REG_STACK _ s2 =>
      { st with stack := fun x => if x = s2 then v.payload else st.stack x }
  | .UNTYPED_STACK_STACK _ s2 =>
      { st with stack := fun x => if x = s2 then v.payload else st.stack x }

/-! ## Float32 reads from floating-point registers -/

/-- The allocation modes of `SnapshotIterator::allocationValue` that do
not involve the word-splitting of values: constants, sentinel constants
and the floating-point locations (JitFrames.cpp lines 1800-1826). -/
inductive RValueAllocationFP where
  | CONSTANT (index : Nat)
  | CST_UNDEFINED
  | CST_NULL
  | DOUBLE_REG (fpuReg : Nat)
  | FLOAT32_REG (fpuReg : Nat)
  | FLOAT32_STACK (stackOffset : Nat)
deriving DecidableEq, Repr

/-- The value results of those reads, with floating-point data carried as
bit patterns (a `DoubleValue` as the 64 bits of the double, a
`Float32Value` as the 32 bits of the float). -/
inductive JSValueBits where
  | doubleBits (bits : Nat)
  | float32Bits (bits : Nat)
  | undefinedValue
  | nullValue
  | constantValue (v : Nat)
deriving DecidableEq, Repr

/-- The floating-point machine state: each floating-point register holds a
64-bit pattern (`fromRegister` reads it), and `ReadFrameFloat32Slot` reads
a 32-bit pattern from a stack slot. -/
structure FpMachine where
  fpRegs : Nat → Nat
  stackFloat32 : Nat → Nat

/-- The `union { double d; float f; }` pun of the `FLOAT32_REG` arm: on
the little-endian targets this code runs on, the float member overlays the
low 32 bits of the double's representation, so reading `pun.f` yields the
low 32 bits of the register's 64-bit pattern, with no numeric conversion. -/
def punDoubleLow32 (bits : Nat) : Nat := bits % 2 ^ 32

/-- Embeds the constant and floating-point arms of
`SnapshotIterator::allocationValue` (JitFrames.cpp lines 1800-1826).  In
particular `FLOAT32_REG` loads the double register's bits and returns the
punned low 32 bits as a float32, exactly as the source comment states
("We just read the bits without making any conversion"). -/
def allocationValueFP (constants : Nat → Nat) (m : FpMachine) :
    RValueAllocationFP → JSValueBits
  | .CONSTANT i => .constantValue (constants i)
  | .CST_UNDEFINED => .undefinedValue
  | .CST_NULL => .nullValue
  | .DOUBLE_REG r => .doubleBits (m.fpRegs r)
  | .FLOAT32_REG r => .float32Bits (punDoubleLow32 (m.fpRegs r))
  | .FLOAT32_STACK off => .float32Bits (m.stackFloat32 off)

/-! ## Recover-table evaluation and memoization -/

/-- A recover-table entry as the evaluation loop distinguishes them: a
resume-point marker (`RResumePoint`, skipped by evaluation) or a recover
instruction, abstracted by the value its `recover` method stores. -/
inductive RInstr where
  | resumePoint (numOperands : Nat)
  | recoverIns (result : Nat)
deriving DecidableEq, Repr

/-- A slot of the results vector: either the magic
`MagicValue(JS_ION_BAILOUT)` placeholder installed by
`RInstructionResults::init`, or a stored result value. -/
inductive RecValue where
  | magicBailout
  | val (n : Nat)
deriving DecidableEq, Repr

/-- Embeds `RInstructionResults` (JitFrames.cpp lines 1589-1660): the
frame it belongs to, the results vector, and the `initialized_` flag. -/
structure RInstructionResults where
  fp : Nat
  results : List RecValue
  initializedFlag : Bool
deriving DecidableEq, Repr

/-- The body of a recover-table slot once evaluation has run over it: a
recover instruction's slot holds its stored result, a mid-list resume
point is skipped (`skipInstruction`) so its slot keeps the magic
placeholder. -/
def slotResult : RInstr → RecValue
  | .resumePoint _ => .magicBailout
  | .recoverIns v => .val v

/-- Embeds the evaluation loop of
`SnapshotIterator::computeInstructionResults` (JitFrames.cpp lines
2130-2142) over the indexed instruction stream: a resume point is skipped;
a recover instruction is executed (counted) and its result stored at the
instruction's index (`storeInstructionResult`, lines 2149-2155, writes the
slot `numInstructionsRead - 1`, which holds the magic placeholder).
Returns the updated results vector and the number of recover instructions
executed. -/
def runRecoverLoop : List (Nat × RInstr) → List RecValue → List RecValue × Nat
  | [], res => (res, 0)
  | (_, .resumePoint _) :: rest, res => runRecoverLoop rest res
  | (i, .recoverIns v) :: rest, res =>
      let r := runRecoverLoop rest (res.set i (.val v))
      (r.1, r.2 + 1)

/-- Embeds `SnapshotIterator::computeInstructionResults` (JitFrames.cpp
lines 2107-2147).  The last instruction is always a resume point, so
`numResults = numInstructions - 1`; the vector is initialized with that
many magic placeholders, and when it is empty the function returns without
iterating ("No need to iterate over the only resume point").  Otherwise
the loop evaluates the first `numResults` instructions.  The second
component counts executed recover instructions (the spec's instrumented
counter). -/
def computeInstructionResults (instrs : List RInstr) (results : RInstructionResults) :
    RInstructionResults × Nat :=
  let numResults := instrs.length - 1
  if results.initializedFlag then (results, 0)
  else
    let res0 := List.replicate numResults RecValue.magicBailout
    if numResults = 0 then
      ({ results with results := res0, initializedFlag := true }, 0)
    else
      let r := runRecoverLoop ((instrs.take numResults).enum) res0
      ({ results with results := r.1, initializedFlag := true }, r.2)

/-- The activation-owned recovery state: the list of per-frame memoized
recover results (`registerIonFrameRecovery` / `maybeIonFrameRecovery`),
plus the instrumented counter of executed recover instructions. -/
structure RecoverActivation where
  recoveries : List (Nat × RInstructionResults)
  evalCount : Nat
deriving DecidableEq, Repr

/-- Embeds `JitActivation::maybeIonFrameRecovery`: the memoized results
registered for the frame, if any. -/
def maybeIonFrameRecovery (act : RecoverActivation) (fp : Nat) :
    Option RInstructionResults :=
  (act.recoveries.find? (fun p => p.1 = fp)).map Prod.snd

/-- Embeds `SnapshotIterator::initInstructionResults` (JitFrames.cpp lines
2054-2105).  If the recover table holds only the mandatory trailing resume
point, the function returns immediately without touching the activation or
`instructionResults_` (modelled by `none`).  Otherwise the activation's
memoized results for the frame are used when present; if absent, a fresh
uninitialized vector is registered on the activation and filled by
`computeInstructionResults` (the source fills it in place through the
registered pointer; the model registers the filled vector), and the
executed-instruction counter is advanced.  The recompilation side effect
of the `Fallback_Invalidate` consequence (a flag set on the ion script) is
not tracked. -/
def initInstructionResults (instrs : List RInstr) (fp : Nat)
    (act : RecoverActivation) : RecoverActivation × Option RInstructionResults :=
  if instrs.length = 1 then (act, none)
  else
    match maybeIonFrameRecovery act fp with
    | some results => (act, some results)
    | none =>
        let tmp : RInstructionResults :=
          { fp := fp, results := [], initializedFlag := false }
        let r := computeInstructionResults instrs tmp
        ({ recoveries := (fp, r.1) :: act.recoveries,
           evalCount := act.evalCount + r.2 },
         some r.1)

/-! ## Baseline bytecode-position resolution (baselineScriptAndPc) -/

/-- The parts of a `BaselineScript` (BaselineJIT.h) that
`baselineScriptAndPc` consults.  `methodRaw` is the native code start
(`method_->raw()`); `prologueEntryAddr`/`postDebugPrologueAddr` are that
base plus the stored offsets (BaselineJIT.h lines 269-288).  The
inline-cache return-address table lookup (`maybeICEntryFromReturnAddress`
composed with `ICEntry::pc`, declared in the sources, defined elsewhere)
and the PC-mapping fallback (`pcForReturnAddress`) are carried as abstract
functions. -/
structure BaselineScriptPcTables where
  methodRaw : Nat
  prologueOffset : Nat
  postDebugPrologueOffset : Nat
  icEntryPcFromReturnAddress : Nat → Option Nat
  pcForReturnAddress : Nat → Nat

/-- `BaselineScript::prologueEntryAddr` (BaselineJIT.h lines 272-274). -/
def BaselineScriptPcTables.prologueEntryAddr (b : BaselineScriptPcTables) : Nat :=
  b.methodRaw + b.prologueOffset

/-- `BaselineScript::postDebugPrologueAddr` (BaselineJIT.h lines 286-288). -/
def BaselineScriptPcTables.postDebugPrologueAddr (b : BaselineScriptPcTables) : Nat :=
  b.methodRaw + b.postDebugPrologueOffset

/-- A script as seen by `baselineScriptAndPc`: its first bytecode position
(`script->code()`) and its baseline artifact. -/
structure ScriptPcCtx where
  code : Nat
  baseline : BaselineScriptPcTables

/-- The per-frame pc overrides `baselineScriptAndPc` consults: the
exception-scope-unwinding override (`getUnwoundScopeOverridePc`) and the
debug-mode-OSR stashed pc (`getDebugModeOSRInfo()->pc`), each `none` when
absent. -/
structure BaselineFramePcCtx where
  unwoundScopeOverridePc : Option Nat
  debugModeOSRInfoPc : Option Nat

/-- Embeds `JitFrameIterator::baselineScriptAndPc` (JitFrames.cpp lines
221-266), returning the resolved bytecode position: the unwound-scope
override pc wins; else the debug-mode-OSR pc; else a return address equal
to the prologue entry or the post-debug-prologue address yields the start
of the script; else a hit in the inline-cache return-address table yields
that entry's pc; else the PC-mapping table fallback. -/
def baselineScriptAndPc (frame : BaselineFramePcCtx) (script : ScriptPcCtx)
    (retAddr : Nat) : Nat :=
  match frame.unwoundScopeOverridePc with
  | some overridePc => overridePc
  | none =>
    match frame.debugModeOSRInfoPc with
    | some osrPc => osrPc
    | none =>
      if retAddr = script.baseline.prologueEntryAddr ∨
         retAddr = script.baseline.postDebugPrologueAddr then
        script.code
      else
        match script.baseline.icEntryPcFromReturnAddress retAddr with
        | some icPc => icPc
        | none => script.baseline.pcForReturnAddress retAddr

/-! ## Baseline exception handling (HandleExceptionBaseline) -/

/-- Try-note kinds (`JSTryNoteKind`) dispatched by the baseline unwinder. -/
inductive TryNoteKind where
  | JSTRY_CATCH
  | JSTRY_FINALLY
  | JSTRY_ITER
  | JSTRY_LOOP
deriving DecidableEq, Repr

/-- A `JSTryNote`: kind, recorded stack depth, and the covered bytecode
range `[start, start+length)` measured from `script->main()`. -/
structure JSTryNote where
  kind : TryNoteKind
  stackDepth : Nat
  start : Nat
  length : Nat
deriving DecidableEq, Repr

/-- An exception value, as the unwinder distinguishes them: the magic
`JS_GENERATOR_CLOSING` pseudo-exception, or an ordinary value. -/
inductive ExcValue where
  | magicGeneratorClosing
  | ordinary (v : Nat)
deriving DecidableEq, Repr

/-- Resume kinds of `ResumeFromException`. -/
inductive ResumeKind where
  | RESUME_ENTRY_FRAME
  | RESUME_CATCH
  | RESUME_FINALLY
  | RESUME_FORCED_RETURN
  | RESUME_BAILOUT
deriving DecidableEq, Repr

/-- Platform layout constants used to compute the resume frame/stack
pointers (`BaselineFrame::FramePointerOffset`, `BaselineFrame::Size()`,
`sizeof(Value)`), defined outside the sampled sources. -/
structure BaselineLayoutConsts where
  framePointerOffset : Int
  baselineFrameSize : Int
  valueSize : Int

/-- The context-level inputs of `HandleExceptionBaseline`. -/
structure CxState where
  pendingException : Option ExcValue
  propagatingForcedReturn : Bool
  debuggee : Bool

/-- The baseline frame inputs of the trynote scan: its raw frame pointer
and its current number of value slots. -/
structure BaselineFrameCtx where
  fp : Int
  numValueSlots : Nat

/-- A script as seen by the baseline unwinder: try notes, fixed-slot
count, the baseline `nativeCodeForPC` map (by bytecode offset from
`main()`; `BaselineScript::nativeCodeForPC` is declared in BaselineJIT.h
lines 360-366, its table lookup defined elsewhere) and the external
`UnwindScopeToTryPc` map (by try-note start offset). -/
structure ScriptExcCtx where
  trynotes : List JSTryNote
  nfixed : Nat
  nativeCodeForPC : Nat → Nat
  unwindScopeToTryPc : Nat → Nat

/-- The mutable outcome of `HandleExceptionBaseline`: the
`ResumeFromException` fields it can write, the script/frame side effects
the claims observe (`resetWarmUpCounter`, scope unwinding, the count of
iterators closed by `JSTRY_ITER` notes) and the pending-exception state. -/
structure HEBState where
  pendingException : Option ExcValue
  warmUpReset : Bool
  unwoundScopeToPc : Option Nat
  itersClosed : Nat
  framePointer : Int
  stackPointer : Int
  kind : ResumeKind
  target : Nat
  storedException : Option ExcValue
deriving DecidableEq, Repr

/-- Embeds `HandleClosingGeneratorReturn` (JitFrames.cpp lines 526-553):
it does nothing unless the pending exception is the magic
generator-closing value; that case performs a forced return through the
external `DebugEpilogue` collaborator and is left unmodelled (`none`). -/
def handleClosingGeneratorReturn (st : HEBState) : Option HEBState :=
  if st.pendingException = some ExcValue.magicGeneratorClosing then none
  else some st

/-- Embeds the try-note scan of `HandleExceptionBaseline` (JitFrames.cpp
lines 620-704).  Notes not covering the pc offset, or whose recorded stack
depth exceeds the frame's depth, are skipped.  A matching note first
unwinds the scope chain (when an exception is pending) and computes the
resume frame/stack pointers; then a CATCH note with a pending ordinary
exception resets the warm-up counter and resumes at the native code for
the end of the range; a FINALLY note with a pending exception stashes and
clears it and resumes likewise; an ITER note closes the live iterator; a
LOOP note does nothing.  Falling off the list ends in
`HandleClosingGeneratorReturn`. -/
def tryNoteLoop (consts : BaselineLayoutConsts) (frame : BaselineFrameCtx)
    (script : ScriptExcCtx) (pcOffset : Nat) :
    List JSTryNote → HEBState → Option HEBState
  | [], st => handleClosingGeneratorReturn st
  | tn :: rest, st =>
    if pcOffset < tn.start then tryNoteLoop consts frame script pcOffset rest st
    else if tn.start + tn.length ≤ pcOffset then
      tryNoteLoop consts frame script pcOffset rest st
    else
      let stackDepth := frame.numValueSlots - script.nfixed
      if stackDepth < tn.stackDepth then
        tryNoteLoop consts frame script pcOffset rest st
      else
        let st1 :=
          if st.pendingException.isSome then
            { st with unwoundScopeToPc := some (script.unwindScopeToTryPc tn.start) }
          else st
        let fpR := frame.fp - consts.framePointerOffset
        let spR := fpR - consts.baselineFrameSize -
          (script.nfixed + tn.stackDepth) * consts.valueSize
        let st2 := { st1 with framePointer := fpR, stackPointer := spR }
        match tn.kind with
        | .JSTRY_CATCH =>
          match st2.pendingException with
          | some e =>
            if e = ExcValue.magicGeneratorClosing then
              tryNoteLoop consts frame script pcOffset rest st2
            else
              some { st2 with warmUpReset := true,
                              kind := ResumeKind.RESUME_CATCH,
                              target := script.nativeCodeForPC (tn.start + tn.length) }
          | none => tryNoteLoop consts frame script pcOffset rest st2
        | .JSTRY_FINALLY =>
          match st2.pendingException with
          | some e =>
            some { st2 with kind := ResumeKind.RESUME_FINALLY,
                            target := script.nativeCodeForPC (tn.start + tn.length),
                            storedException := some e,
                            pendingException := none }
          | none => tryNoteLoop consts frame script pcOffset rest st2
        | .JSTRY_ITER =>
          tryNoteLoop consts frame script pcOffset rest
            { st2 with itersClosed := st2.itersClosed + 1 }
        | .JSTRY_LOOP => tryNoteLoop consts frame script pcOffset rest st2

/-- Embeds `HandleExceptionBaseline` (JitFrames.cpp lines 568-704).  The
propagating-forced-return path and the debugger `onExceptionUnwind` hook
(taken when the compartment is a debuggee and an ordinary exception is
pending) call external collaborators (`DebugEpilogue`, `Debugger`) and are
left unmodelled (`none`); otherwise the try-note scan runs, starting from
the `RESUME_ENTRY_FRAME` outcome installed by `HandleException`. -/
def handleExceptionBaseline (consts : BaselineLayoutConsts) (cx : CxState)
    (frame : BaselineFrameCtx) (script : ScriptExcCtx) (pcOffset : Nat) :
    Option HEBState :=
  let st0 : HEBState :=
    { pendingException := cx.pendingException, warmUpReset := false,
      unwoundScopeToPc := none, itersClosed := 0, framePointer := 0,
      stackPointer := 0, kind := ResumeKind.RESUME_ENTRY_FRAME, target := 0,
      storedException := none }
  if cx.propagatingForcedReturn then none
  else if cx.debuggee &&
          (match cx.pendingException with
           | some e => decide (e ≠ ExcValue.magicGeneratorClosing)
           | none => false) then none
  else if script.trynotes.isEmpty then handleClosingGeneratorReturn st0
  else tryNoteLoop consts frame script pcOffset script.trynotes st0

/-! ## The HandleException frame walk -/

/-- The frame walk driving `HandleException` (JitFrames.cpp lines
736-868): `while (!iter.isEntry()) { ...; ++iter; }`, here fuel-bounded
and with the per-frame handler work abstracted away (it does not move the
iterator; the walk position only changes through `operator++`). -/
def walkToEntry (sz : FrameSizes) (mem : StackMem) :
    Nat → IterState → Option IterState
  | 0, it => some it
  | n + 1, it =>
    if it.typ = JitFrame_Entry then some it
    else (stepIter sz mem it).bind (walkToEntry sz mem n)

/-- The resume stack pointer published after the walk:
`rfe->stackPointer = iter.fp()` (JitFrames.cpp line 870). -/
def handleExceptionStackPointer (sz : FrameSizes) (mem : StackMem) (fuel : Nat)
    (it : IterState) : Option Nat :=
  (walkToEntry sz mem fuel it).map IterState.fp

/-! ## Helper lemmas -/

/-- Whether a recover-table entry is a recover instruction (as opposed to
a resume-point marker). -/
def RInstr.isRecover : RInstr → Bool
  | .recoverIns _ => true
  | .resumePoint _ => false

theorem runRecoverLoop_count (ps : List (Nat × RInstr)) (res : List RecValue) :
    (runRecoverLoop ps res).2 = ps.countP (fun p => p.2.isRecover) := by
  induction ps generalizing res with
  | nil => simp [runRecoverLoop, List.countP_nil]
  | cons p rest ih =>
    obtain ⟨i, ins⟩ := p
    cases ins with
    | resumePoint no =>
      simp [runRecoverLoop, ih, List.countP_cons, RInstr.isRecover]
    | recoverIns v =>
      simp [runRecoverLoop, ih, List.countP_cons, RInstr.isRecover]

theorem runRecoverLoop_count_enumFrom (l : List RInstr) (n : Nat)
    (res : List RecValue) :
    (runRecoverLoop (l.enumFrom n) res).2 = l.countP RInstr.isRecover := by
  induction l generalizing n res with
  | nil => simp [runRecoverLoop, List.countP_nil]
  | cons x xs ih =>
    cases x with
    | resumePoint no =>
      simp [List.enumFrom, runRecoverLoop, List.countP_cons, ih, RInstr.isRecover]
    | recoverIns v =>
      simp [List.enumFrom, runRecoverLoop, List.countP_cons, ih, RInstr.isRecover]

theorem set_append_length (l l' : List RecValue) (a b : RecValue) :
    (l ++ a :: l').set l.length b = l ++ b :: l' := by
  induction l with
  | nil => rfl
  | cons x xs ih => simp [List.set, ih]

theorem runRecoverLoop_results (l : List RInstr) :
    ∀ pre : List RecValue,
      (runRecoverLoop (l.enumFrom pre.length)
          (pre ++ List.replicate l.length RecValue.magicBailout)).1
        = pre ++ l.map slotResult := by
  induction l with
  | nil => intro pre; simp [runRecoverLoop]
  | cons x xs ih =>
    intro pre
    cases x with
    | resumePoint no =>
      have h1 :
          pre ++ RecValue.magicBailout :: List.replicate xs.length RecValue.magicBailout
            = (pre ++ [RecValue.magicBailout]) ++
              List.replicate xs.length RecValue.magicBailout := by
        simp
      have h2 : pre.length + 1 = (pre ++ [RecValue.magicBailout]).length := by simp
      simp only [List.enumFrom, List.length_cons, List.replicate, runRecoverLoop]
      rw [h1, h2, ih (pre ++ [RecValue.magicBailout])]
      simp [slotResult]
    | recoverIns v =>
      have hset :
          (pre ++ RecValue.magicBailout ::
              List.replicate xs.length RecValue.magicBailout).set pre.length
              (RecValue.val v)
            = pre ++ RecValue.val v :: List.replicate xs.length RecValue.magicBailout :=
        set_append_length _ _ _ _
      have h1 :
          pre ++ RecValue.val v :: List.replicate xs.length RecValue.magicBailout
            = (pre ++ [RecValue.val v]) ++
              List.replicate xs.length RecValue.magicBailout := by
        simp
      have h2 : pre.length + 1 = (pre ++ [RecValue.val v]).length := by simp
      simp only [List.enumFrom, List.length_cons, List.replicate, runRecoverLoop]
      rw [hset, h1, h2, ih (pre ++ [RecValue.val v])]
      simp [slotResult]

theorem computeInstructionResults_spec (instrs : List RInstr)
    (r : RInstructionResults) (hr : r.initializedFlag = false) :
    computeInstructionResults instrs r
      = ({ r with results := (instrs.take (instrs.length - 1)).map slotResult,
                  initializedFlag := true },
         (instrs.take (instrs.length - 1)).countP RInstr.isRecover) := by
  unfold computeInstructionResults
  rw [hr]
  by_cases h0 : instrs.length - 1 = 0
  · simp [h0]
  · have hlen : (instrs.take (instrs.length - 1)).length = instrs.length - 1 := by
      simp [List.length_take]
    have hrep := runRecoverLoop_results (instrs.take (instrs.length - 1)) []
    simp only [List.length_nil, List.nil_append, hlen] at hrep
    have hcnt := runRecoverLoop_count_enumFrom (instrs.take (instrs.length - 1)) 0
      (List.replicate (instrs.length - 1) RecValue.magicBailout)
    simp only [Bool.false_eq_true, if_false, if_neg h0, List.enum]
    rw [hrep, hcnt]

/-! ## Claim theorems: recover-table evaluation (C4, C8) -/

/-- **C4.** Recover-table evaluation is memoized and idempotent per
(frame, artifact) pair: when the activation has no memoized entry for the
frame, the first `initInstructionResults` call evaluates every recover
instruction exactly once (the instrumented counter grows by the number of
recover instructions before the trailing resume point), registers on the
activation a results vector in which every slot was initialized to the
magic bailout placeholder and written at most once (a recover
instruction's slot holds its stored value, a mid-list resume point's slot
keeps the placeholder), and any subsequent call for the same frame
returns the cached results with the activation — in particular the
counter — unchanged, so no recover instruction is re-executed. -/
theorem c4_recover_memoized (instrs : List RInstr) (fp : Nat)
    (act : RecoverActivation)
    (h2 : 2 ≤ instrs.length)
    (hmiss : maybeIonFrameRecovery act fp = none) :
    initInstructionResults instrs fp act =
      ({ recoveries :=
           (fp, { fp := fp,
                  results := (instrs.take (instrs.length - 1)).map slotResult,
                  initializedFlag := true }) :: act.recoveries,
         evalCount := act.evalCount +
           (instrs.take (instrs.length - 1)).countP RInstr.isRecover },
       some { fp := fp,
              results := (instrs.take (instrs.length - 1)).map slotResult,
              initializedFlag := true }) ∧
    (∀ act1 res, initInstructionResults instrs fp act = (act1, res) →
      initInstructionResults instrs fp act1 = (act1, res)) := by
  have hlen1 : instrs.length ≠ 1 := by omega
  have hfirst : initInstructionResults instrs fp act =
      ({ recoveries :=
           (fp, { fp := fp,
                  results := (instrs.take (instrs.length - 1)).map slotResult,
                  initializedFlag := true }) :: act.recoveries,
         evalCount := act.evalCount +
           (instrs.take (instrs.length - 1)).countP RInstr.isRecover },
       some { fp := fp,
              results := (instrs.take (instrs.length - 1)).map slotResult,
              initializedFlag := true }) := by
    have hspec := computeInstructionResults_spec instrs
      { fp := fp, results := [], initializedFlag := false } rfl
    unfold initInstructionResults
    rw [if_neg hlen1, hmiss]
    simp [hspec]
  refine ⟨hfirst, ?_⟩
  intro act1 res h1
  rw [hfirst] at h1
  injection h1 with h1a h1b
  subst h1a
  subst h1b
  unfold initInstructionResults
  rw [if_neg hlen1]
  simp [maybeIonFrameRecovery]

/-- Witness for C4 at a concrete recover table with two recover
instructions, a mid-list resume point and the trailing resume point. -/
theorem c4_recover_memoized_witness :
    initInstructionResults
        [RInstr.recoverIns 5, RInstr.resumePoint 0,
         RInstr.recoverIns 9, RInstr.resumePoint 2] 3 ⟨[], 0⟩ =
      (⟨[(3, ⟨3, [RecValue.val 5, RecValue.magicBailout, RecValue.val 9], true⟩)], 2⟩,
       some ⟨3, [RecValue.val 5, RecValue.magicBailout, RecValue.val 9], true⟩) ∧
    initInstructionResults
        [RInstr.recoverIns 5, RInstr.resumePoint 0,
         RInstr.recoverIns 9, RInstr.resumePoint 2] 3
        ⟨[(3, ⟨3, [RecValue.val 5, RecValue.magicBailout, RecValue.val 9], true⟩)], 2⟩ =
      (⟨[(3, ⟨3, [RecValue.val 5, RecValue.magicBailout, RecValue.val 9], true⟩)], 2⟩,
       some ⟨3, [RecValue.val 5, RecValue.magicBailout, RecValue.val 9], true⟩) := by
  have h := c4_recover_memoized
    [RInstr.recoverIns 5, RInstr.resumePoint 0,
     RInstr.recoverIns 9, RInstr.resumePoint 2] 3 ⟨[], 0⟩
    (by decide) (by decide)
  exact ⟨h.1.trans (by decide), (h.2 _ _ h.1).trans (by decide)⟩

/-- **C8.** When the recover table holds exactly one instruction (the
mandatory trailing resume-point marker), `computeInstructionResults`
initializes the results buffer with zero entries and returns without
executing any recover instruction, and `initInstructionResults`
short-circuits immediately, leaving the activation (and its
executed-instruction counter) untouched. -/
theorem c8_single_resume_point (instrs : List RInstr) (fp : Nat)
    (act : RecoverActivation) (r : RInstructionResults)
    (h1 : instrs.length = 1) (hr : r.initializedFlag = false) :
    computeInstructionResults instrs r
        = ({ r with results := [], initializedFlag := true }, 0) ∧
    initInstructionResults instrs fp act = (act, none) := by
  constructor
  · have h := computeInstructionResults_spec instrs r hr
    rw [h1] at h
    simpa using h
  · unfold initInstructionResults
    rw [if_pos h1]

/-- Witness for C8 at the one-entry recover table. -/
theorem c8_single_resume_point_witness :
    computeInstructionResults [RInstr.resumePoint 4] ⟨7, [], false⟩
        = (⟨7, [], true⟩, 0) ∧
    initInstructionResults [RInstr.resumePoint 4] 7 ⟨[], 5⟩ = (⟨[], 5⟩, none) := by
  have h := c8_single_resume_point [RInstr.resumePoint 4] 7 ⟨[], 5⟩ ⟨7, [], false⟩
    (by decide) (by decide)
  exact ⟨h.1.trans (by decide), h.2⟩

/-! ## Claim theorems: torn values and float32 reads (C2, C9) -/

/-- **C2.** On the two-word (tag,payload) encoding, a torn value with its
tag in register `r` and its payload in stack slot `s` reads as the value
constructed directly from those tag bits and payload bits — both in the GC
marking walk's nunbox loop and in the snapshot engine's untyped arms — and
a relocating write-back updates only the payload location's bits: the
register file (in particular the tag register) and the argument area are
untouched, stack slots other than `s` are untouched, and when the
collector relocates the value, slot `s` receives the relocated payload
bits. -/
theorem c2_torn_value_payload_writeback
    (gcMove : JSValLayout → JSValLayout) (st : NunboxState) (snap : SnapState)
    (r s : Nat) (v : JSValLayout) :
    (markNunboxSlotPair gcMove st (.generalReg r) (.stackSlot s)).1
        = gcMove { tag := st.regs r, payload := st.slots s } ∧
    (∀ x, ((markNunboxSlotPair gcMove st (.generalReg r) (.stackSlot s)).2).regs x
        = st.regs x) ∧
    (∀ x, ((markNunboxSlotPair gcMove st (.generalReg r) (.stackSlot s)).2).args x
        = st.args x) ∧
    (∀ x, x ≠ s → ((markNunboxSlotPair gcMove st (.generalReg r) (.stackSlot s)).2).slots x
        = st.slots x) ∧
    (gcMove { tag := st.regs r, payload := st.slots s }
        ≠ { tag := st.regs r, payload := st.slots s } →
      ((markNunboxSlotPair gcMove st (.generalReg r) (.stackSlot s)).2).slots s
        = (gcMove { tag := st.regs r, payload := st.slots s }).payload) ∧
    allocationValueUntyped snap (.UNTYPED_REG_STACK r s)
        = { tag := snap.regs r, payload := snap.stack s } ∧
    (∀ x, (writeAllocationValuePayloadUntyped snap (.UNTYPED_REG_STACK r s) v).regs x
        = snap.regs x) ∧
    (∀ x, x ≠ s → (writeAllocationValuePayloadUntyped snap (.UNTYPED_REG_STACK r s) v).stack x
        = snap.stack x) ∧
    (writeAllocationValuePayloadUntyped snap (.UNTYPED_REG_STACK r s) v).stack s
        = v.payload := by
  refine ⟨?_, ?_, ?_, ?_, ?_, rfl, ?_, ?_, ?_⟩
  · simp only [markNunboxSlotPair, ReadAllocation]
    split <;> rfl
  · intro x
    simp only [markNunboxSlotPair, ReadAllocation]
    split <;> simp [WriteAllocation]
  · intro x
    simp only [markNunboxSlotPair, ReadAllocation]
    split <;> simp [WriteAllocation]
  · intro x hx
    simp only [markNunboxSlotPair, ReadAllocation]
    split <;> simp [WriteAllocation, hx]
  · intro hmove
    simp only [markNunboxSlotPair, ReadAllocation]
    split
    · simp [WriteAllocation]
    · rename_i h
      exact absurd hmove h
  · intro x
    simp [writeAllocationValuePayloadUntyped]
  · intro x hx
    simp [writeAllocationValuePayloadUntyped, hx]
  · simp [writeAllocationValuePayloadUntyped]

/-- Witness for C2: tag in register 1, payload in stack slot 7, with a
collector that relocates the payload from 20 to 21. -/
theorem c2_torn_value_payload_writeback_witness :
    (markNunboxSlotPair (fun l => ⟨l.tag, l.payload + 1⟩)
        ⟨fun _ => 10, fun _ => 20, fun _ => 30⟩ (.generalReg 1) (.stackSlot 7)).1
      = ⟨10, 21⟩ ∧
    ((markNunboxSlotPair (fun l => ⟨l.tag, l.payload + 1⟩)
        ⟨fun _ => 10, fun _ => 20, fun _ => 30⟩ (.generalReg 1) (.stackSlot 7)).2).regs 1
      = 10 ∧
    ((markNunboxSlotPair (fun l => ⟨l.tag, l.payload + 1⟩)
        ⟨fun _ => 10, fun _ => 20, fun _ => 30⟩ (.generalReg 1) (.stackSlot 7)).2).slots 7
      = 21 ∧
    ((markNunboxSlotPair (fun l => ⟨l.tag, l.payload + 1⟩)
        ⟨fun _ => 10, fun _ => 20, fun _ => 30⟩ (.generalReg 1) (.stackSlot 7)).2).slots 3
      = 20 ∧
    allocationValueUntyped ⟨fun _ => 10, fun _ => 20⟩ (.UNTYPED_REG_STACK 1 7) = ⟨10, 20⟩ ∧
    (writeAllocationValuePayloadUntyped ⟨fun _ => 10, fun _ => 20⟩
        (.UNTYPED_REG_STACK 1 7) ⟨3, 4⟩).regs 1 = 10 ∧
    (writeAllocationValuePayloadUntyped ⟨fun _ => 10, fun _ => 20⟩
        (.UNTYPED_REG_STACK 1 7) ⟨3, 4⟩).stack 7 = 4 := by
  have h := c2_torn_value_payload_writeback (fun l => ⟨l.tag, l.payload + 1⟩)
    ⟨fun _ => 10, fun _ => 20, fun _ => 30⟩ ⟨fun _ => 10, fun _ => 20⟩ 1 7 ⟨3, 4⟩
  exact ⟨h.1.trans (by decide), h.2.1 1, (h.2.2.2.2.1 (by decide)).trans (by decide),
    h.2.2.2.1 3 (by decide), h.2.2.2.2.2.1.trans (by decide),
    h.2.2.2.2.2.2.1 1, h.2.2.2.2.2.2.2.2⟩

/-- **C9.** Reading a `FLOAT32_REG` allocation yields exactly the low 32
bits of the 64-bit floating-point register reinterpreted as a float32 (the
bit pattern `bits % 2^32`), and the result depends only on those low 32
bits — two register states agreeing on them read back the same value — so
no rounding or numeric conversion of the double's value occurs. -/
theorem c9_float32_reg_bits (constants : Nat → Nat) (m m2 : FpMachine) (r : Nat)
    (hlow : m2.fpRegs r % 2 ^ 32 = m.fpRegs r % 2 ^ 32) :
    allocationValueFP constants m (.FLOAT32_REG r)
        = JSValueBits.float32Bits (m.fpRegs r % 2 ^ 32) ∧
    allocationValueFP constants m2 (.FLOAT32_REG r)
        = allocationValueFP constants m (.FLOAT32_REG r) := by
  exact ⟨rfl, by simp only [allocationValueFP, punDoubleLow32, hlow]⟩

/-- Witness for C9: a register holding the 64-bit pattern
`5·2^32 + 7` reads back as the float32 bit pattern `7`, as does a register
holding plain `7`. -/
theorem c9_float32_reg_bits_witness :
    allocationValueFP (fun _ => 0) ⟨fun _ => 5 * 2 ^ 32 + 7, fun _ => 0⟩
        (.FLOAT32_REG 2) = JSValueBits.float32Bits 7 ∧
    allocationValueFP (fun _ => 0) ⟨fun _ => 7, fun _ => 0⟩ (.FLOAT32_REG 2)
      = allocationValueFP (fun _ => 0) ⟨fun _ => 5 * 2 ^ 32 + 7, fun _ => 0⟩
        (.FLOAT32_REG 2) := by
  have h := c9_float32_reg_bits (fun _ => 0) ⟨fun _ => 5 * 2 ^ 32 + 7, fun _ => 0⟩
    ⟨fun _ => 7, fun _ => 0⟩ 2 (by decide)
  exact ⟨h.1.trans (by decide), h.2⟩

/-! ## Claim theorems: baseline pc resolution (C3) -/

/-- **C3.** `baselineScriptAndPc` resolves the bytecode position by
trying, strictly in this order with first match winning: (1) the
exception-scope-unwinding override pc, (2) the debug-mode-OSR stashed pc,
(3) a return address equal to the prologue entry address or the
post-debug-prologue address, which yields the script's first pc, (4) the
inline-cache return-address table, and (5) the PC-mapping table
fallback. -/
theorem c3_pc_resolution_order (frame : BaselineFramePcCtx) (script : ScriptPcCtx)
    (retAddr : Nat) :
    (∀ p, frame.unwoundScopeOverridePc = some p →
        baselineScriptAndPc frame script retAddr = p) ∧
    (frame.unwoundScopeOverridePc = none →
      (∀ p, frame.debugModeOSRInfoPc = some p →
          baselineScriptAndPc frame script retAddr = p) ∧
      (frame.debugModeOSRInfoPc = none →
        ((retAddr = script.baseline.prologueEntryAddr ∨
          retAddr = script.baseline.postDebugPrologueAddr) →
            baselineScriptAndPc frame script retAddr = script.code) ∧
        (retAddr ≠ script.baseline.prologueEntryAddr →
         retAddr ≠ script.baseline.postDebugPrologueAddr →
          (∀ p, script.baseline.icEntryPcFromReturnAddress retAddr = some p →
              baselineScriptAndPc frame script retAddr = p) ∧
          (script.baseline.icEntryPcFromReturnAddress retAddr = none →
              baselineScriptAndPc frame script retAddr =
                script.baseline.pcForReturnAddress retAddr)))) := by
  refine ⟨?_, ?_⟩
  · intro p hp
    simp [baselineScriptAndPc, hp]
  · intro h1
    refine ⟨?_, ?_⟩
    · intro p hp
      simp [baselineScriptAndPc, h1, hp]
    · intro h2
      refine ⟨?_, ?_⟩
      · intro hpro
        simp only [baselineScriptAndPc, h1, h2]
        rw [if_pos hpro]
      · intro hp1 hp2
        have hcond : ¬ (retAddr = script.baseline.prologueEntryAddr ∨
            retAddr = script.baseline.postDebugPrologueAddr) := by
          rintro (h | h) <;> [exact hp1 h; exact hp2 h]
        refine ⟨?_, ?_⟩
        · intro p hp
          simp only [baselineScriptAndPc, h1, h2]
          rw [if_neg hcond, hp]
        · intro hic
          simp only [baselineScriptAndPc, h1, h2]
          rw [if_neg hcond, hic]

/-- Witness for C3: one concrete frame/script per resolution level,
exercising each of the five first-match cases through the theorem. -/
theorem c3_pc_resolution_order_witness :
    baselineScriptAndPc ⟨some 41, some 42⟩ ⟨7, ⟨100, 3, 6, fun _ => some 43, fun _ => 44⟩⟩ 103
        = 41 ∧
    baselineScriptAndPc ⟨none, some 42⟩ ⟨7, ⟨100, 3, 6, fun _ => some 43, fun _ => 44⟩⟩ 103
        = 42 ∧
    baselineScriptAndPc ⟨none, none⟩ ⟨7, ⟨100, 3, 6, fun _ => some 43, fun _ => 44⟩⟩ 103
        = 7 ∧
    baselineScriptAndPc ⟨none, none⟩ ⟨7, ⟨100, 3, 6, fun _ => some 43, fun _ => 44⟩⟩ 150
        = 43 ∧
    baselineScriptAndPc ⟨none, none⟩ ⟨7, ⟨100, 3, 6, fun _ => none, fun _ => 44⟩⟩ 150
        = 44 := by
  refine ⟨?_, ?_, ?_, ?_, ?_⟩
  · exact (c3_pc_resolution_order ⟨some 41, some 42⟩
      ⟨7, ⟨100, 3, 6, fun _ => some 43, fun _ => 44⟩⟩ 103).1 41 rfl
  · exact ((c3_pc_resolution_order ⟨none, some 42⟩
      ⟨7, ⟨100, 3, 6, fun _ => some 43, fun _ => 44⟩⟩ 103).2 rfl).1 42 rfl
  · exact (((c3_pc_resolution_order ⟨none, none⟩
      ⟨7, ⟨100, 3, 6, fun _ => some 43, fun _ => 44⟩⟩ 103).2 rfl).2 rfl).1
      (Or.inl (by decide))
  · exact ((((c3_pc_resolution_order ⟨none, none⟩
      ⟨7, ⟨100, 3, 6, fun _ => some 43, fun _ => 44⟩⟩ 150).2 rfl).2 rfl).2
      (by decide) (by decide)).1 43 rfl
  · exact ((((c3_pc_resolution_order ⟨none, none⟩
      ⟨7, ⟨100, 3, 6, fun _ => none, fun _ => 44⟩⟩ 150).2 rfl).2 rfl).2
      (by decide) (by decide)).2 rfl

/-! ## Claim theorems: baseline catch dispatch (C5) -/

/-- **C5.** For a baseline frame with a pending (ordinary) exception, a
try-note table containing one CATCH region covering bytecode offsets
`[10,20)` at stack depth 2, current pc offset 15 and frame stack depth at
least 2, the exception handler resumes with `RESUME_CATCH`, sets the
resume target to the native code address for the pc at the end of the
region (offset `20 = start + length`), and resets the script's warm-up
counter. -/
theorem c5_catch_dispatch (consts : BaselineLayoutConsts) (cx : CxState)
    (frame : BaselineFrameCtx) (script : ScriptExcCtx) (v : Nat)
    (htn : script.trynotes = [⟨TryNoteKind.JSTRY_CATCH, 2, 10, 10⟩])
    (hexc : cx.pendingException = some (ExcValue.ordinary v))
    (hpf : cx.propagatingForcedReturn = false)
    (hdbg : cx.debuggee = false)
    (hdepth : script.nfixed + 2 ≤ frame.numValueSlots) :
    ∃ st, handleExceptionBaseline consts cx frame script 15 = some st ∧
      st.kind = ResumeKind.RESUME_CATCH ∧
      st.target = script.nativeCodeForPC 20 ∧
      st.warmUpReset = true ∧
      st.pendingException = some (ExcValue.ordinary v) := by
  have hsd : ¬ (frame.numValueSlots - script.nfixed < 2) := by omega
  simp only [handleExceptionBaseline, hpf, hdbg, htn, hexc, Bool.false_eq_true,
    if_false, Bool.false_and, List.isEmpty_cons, tryNoteLoop]
  norm_num [hsd]
  exact ⟨_, rfl, rfl, rfl, rfl, rfl⟩

/-- Witness for C5 at a fully concrete frame, script and layout. -/
theorem c5_catch_dispatch_witness :
    ∃ st, handleExceptionBaseline ⟨8, 64, 8⟩ ⟨some (ExcValue.ordinary 3), false, false⟩
        ⟨1000, 10⟩ ⟨[⟨TryNoteKind.JSTRY_CATCH, 2, 10, 10⟩], 4, fun off => 5000 + off,
          fun s => s⟩ 15 = some st ∧
      st.kind = ResumeKind.RESUME_CATCH ∧
      st.target = 5020 ∧
      st.warmUpReset = true ∧
      st.pendingException = some (ExcValue.ordinary 3) := by
  obtain ⟨st, h1, h2, h3, h4, h5⟩ := c5_catch_dispatch ⟨8, 64, 8⟩
    ⟨some (ExcValue.ordinary 3), false, false⟩ ⟨1000, 10⟩
    ⟨[⟨TryNoteKind.JSTRY_CATCH, 2, 10, 10⟩], 4, fun off => 5000 + off, fun s => s⟩ 3
    rfl rfl rfl rfl (by decide)
  exact ⟨st, h1, h2, h3.trans (by decide), h4, h5⟩

/-! ## Claim theorems: stepping to the caller (C6, corrected; C10) -/

/-- **C6 counterexample.** The claim fails as stated on two counts, both
visible at one concrete step.  For a synthesized (fake) exit frame — here
an exit-typed frame whose stored predecessor tag is `Unwound_Rectifier` —
`prevFp` does not use the fixed header size of the current frame type
(the exit layout, 24 here): the quick fix substitutes the scripted
`JitFrameLayout` size (16), so the predecessor address is `100+16+0 = 116`
rather than the claimed `100+24+0 = 124`; and the stored `Unwound_Rectifier`
tag is not translated back to the plain `Rectifier` tag — `operator++`
only translates the unwound ion-JS, baseline-JS and baseline-stub tags. -/
theorem c6_step_to_caller_counterexample :
    stepIter ⟨8, 16, 12, 12, 12, 24⟩
        (fun _ => ⟨FrameType.JitFrame_Unwound_Rectifier, 0, 5⟩)
        ⟨100, FrameType.JitFrame_Exit, 0, 0, some 7⟩
      = some ⟨116, FrameType.JitFrame_Unwound_Rectifier, 5, 0, none⟩ ∧
    sizeOfFrameHeader ⟨8, 16, 12, 12, 12, 24⟩ FrameType.JitFrame_Exit = some 24 ∧
    (116 : Nat) ≠ 100 + 24 + 0 ∧
    FrameType.JitFrame_Unwound_Rectifier ≠ FrameType.JitFrame_Rectifier := by
  decide

/-- **C6 (amended).** Every successful step of `operator++` invalidates
the cached safepoint-index pointer and records the descriptor's locals
size as the new frame size; and every step whose stored predecessor type
is not the entry tag additionally caches the return address, computes the
predecessor address as the current frame address plus a fixed header size
— that of the current frame type, except for synthesized fake exit frames,
which use the scripted JS frame header size — plus the descriptor's
recorded locals size, and exposes the stored predecessor tag with the
unwound ion-JS/baseline-JS/baseline-stub tags translated back to the plain
tags (the unwound-rectifier tag is exposed unchanged). -/
theorem c6_step_to_caller (sz : FrameSizes) (mem : StackMem) (it it' : IterState)
    (hstep : stepIter sz mem it = some it') :
    (it'.cachedSafepointIndex = none ∧
     it'.frameSize = (mem it.current).prevFrameLocalSize) ∧
    ((mem it.current).prevType ≠ FrameType.JitFrame_Entry →
      it'.returnAddressToFp = (mem it.current).returnAddress ∧
      it'.typ = translateUnwound (mem it.current).prevType ∧
      ∃ hdr,
        (if isFakeExitFrame mem it then sizeOfFrameHeader sz FrameType.JitFrame_IonJS
         else sizeOfFrameHeader sz it.typ) = some hdr ∧
        it'.current = it.current + hdr + (mem it.current).prevFrameLocalSize) := by
  by_cases hpe : (mem it.current).prevType = FrameType.JitFrame_Entry
  · simp only [stepIter, hpe, if_pos] at hstep
    injection hstep with hstep
    subst hstep
    exact ⟨⟨rfl, rfl⟩, fun h => absurd hpe h⟩
  · simp only [stepIter, if_neg hpe] at hstep
    obtain ⟨prev, hprev, hrec⟩ := Option.map_eq_some'.mp hstep
    obtain ⟨hdr, hhdr, hval⟩ := Option.map_eq_some'.mp hprev
    subst hrec
    refine ⟨⟨rfl, rfl⟩, fun _ => ⟨rfl, rfl, hdr, hhdr, ?_⟩⟩
    simpa using hval.symm

/-- Witness for C6 at a concrete baseline-stub frame whose caller is an
optimized frame. -/
theorem c6_step_to_caller_witness :
    (⟨116, FrameType.JitFrame_IonJS, 77, 4, none⟩ : IterState).cachedSafepointIndex
        = none ∧
    (⟨116, FrameType.JitFrame_IonJS, 77, 4, none⟩ : IterState).typ
        = translateUnwound
            ((fun _ => (⟨FrameType.JitFrame_IonJS, 4, 77⟩ : FrameDescriptor)) 100).prevType ∧
    ∃ hdr,
      (if isFakeExitFrame (fun _ => ⟨FrameType.JitFrame_IonJS, 4, 77⟩)
            ⟨100, FrameType.JitFrame_BaselineStub, 1, 2, some 3⟩
       then sizeOfFrameHeader ⟨8, 16, 12, 12, 12, 24⟩ FrameType.JitFrame_IonJS
       else sizeOfFrameHeader ⟨8, 16, 12, 12, 12, 24⟩ FrameType.JitFrame_BaselineStub)
        = some hdr ∧
      (⟨116, FrameType.JitFrame_IonJS, 77, 4, none⟩ : IterState).current
        = 100 + hdr + 4 := by
  have h := c6_step_to_caller ⟨8, 16, 12, 12, 12, 24⟩
    (fun _ => ⟨FrameType.JitFrame_IonJS, 4, 77⟩)
    ⟨100, FrameType.JitFrame_BaselineStub, 1, 2, some 3⟩
    ⟨116, FrameType.JitFrame_IonJS, 77, 4, none⟩ (by decide)
  have h2 := h.2 (by decide)
  exact ⟨h.1.1, h2.2.1, h2.2.2⟩

/-- **C10.** When a step finds that the stored predecessor type is the
entry tag, the iterator's type becomes entry but its current frame address
is deliberately left unchanged (the entry and first frames overlap), and
after the exception handler walks to the entry state it publishes
`iter.fp()` — which is still the last scripted frame's address — as the
resume stack pointer. -/
theorem c10_entry_overlap_stack_pointer (sz : FrameSizes) (mem : StackMem)
    (it : IterState) (n : Nat)
    (hne : it.typ ≠ FrameType.JitFrame_Entry)
    (hprev : (mem it.current).prevType = FrameType.JitFrame_Entry) :
    stepIter sz mem it =
      some { it with frameSize := (mem it.current).prevFrameLocalSize,
                     cachedSafepointIndex := none,
                     typ := FrameType.JitFrame_Entry } ∧
    (∀ it', stepIter sz mem it = some it' →
        it'.current = it.current ∧ it'.typ = FrameType.JitFrame_Entry) ∧
    handleExceptionStackPointer sz mem (n + 2) it = some it.fp := by
  have hstep : stepIter sz mem it =
      some { it with frameSize := (mem it.current).prevFrameLocalSize,
                     cachedSafepointIndex := none,
                     typ := FrameType.JitFrame_Entry } := by
    simp [stepIter, hprev]
  refine ⟨hstep, ?_, ?_⟩
  · intro it' h'
    rw [hstep] at h'
    injection h' with h'
    subst h'
    exact ⟨rfl, rfl⟩
  · unfold handleExceptionStackPointer walkToEntry
    rw [if_neg hne, hstep]
    simp [walkToEntry, IterState.fp]

/-- Witness for C10 at a concrete baseline frame sitting just above the
entry frame. -/
theorem c10_entry_overlap_stack_pointer_witness :
    handleExceptionStackPointer ⟨8, 16, 12, 12, 12, 24⟩
        (fun _ => ⟨FrameType.JitFrame_Entry, 3, 9⟩) 2
        ⟨200, FrameType.JitFrame_BaselineJS, 1, 2, some 4⟩ = some 200 ∧
    stepIter ⟨8, 16, 12, 12, 12, 24⟩ (fun _ => ⟨FrameType.JitFrame_Entry, 3, 9⟩)
        ⟨200, FrameType.JitFrame_BaselineJS, 1, 2, some 4⟩
      = some ⟨200, FrameType.JitFrame_Entry, 1, 3, none⟩ := by
  have h := c10_entry_overlap_stack_pointer ⟨8, 16, 12, 12, 12, 24⟩
    (fun _ => ⟨FrameType.JitFrame_Entry, 3, 9⟩)
    ⟨200, FrameType.JitFrame_BaselineJS, 1, 2, some 4⟩ 0 (by decide) (by decide)
  exact ⟨h.2.2, h.1.trans (by decide)⟩

/-! ## Claim theorems: invalidation (C1; C7, corrected) -/

/-- **C1.** For an optimized (non-bailout, sequential-mode) frame whose
callee currently holds artifact `cur` while the instruction stream at the
frame's return address records the original artifact `orig` (reachable by
reading the int32 offset stored immediately before the return address and
fetching the pointer at that offset from it; `orig`'s code contains the
return address while `cur`'s — being a different artifact with disjoint
code — does not), `checkInvalidation` reports the frame invalidated and
returns `orig`, and the GC marking walk both consults `orig`'s safepoint
data and explicitly traces `orig` itself, not the callee's current
artifact `cur`. -/
theorem c1_invalidated_frame_marking (asm : AsmMem) (f : InvFrameCtx)
    (cur orig : IonScript)
    (hb : f.isBailout = false)
    (hm : f.mode = ExecutionMode.SequentialExecution)
    (hcur : f.script.ionScript = some cur)
    (horig : asm.readPtr (f.returnAddr + asm.readInt32 (f.returnAddr - 4)) = orig)
    (_hin : orig.containsReturnAddress f.returnAddr = true)
    (hstale : cur.containsReturnAddress f.returnAddr = false)
    (hdiff : cur ≠ orig) :
    checkInvalidation asm f = (true, some orig) ∧
    markIonJSFrameArtifacts asm f =
      { tracedIonScript := some orig, safepointIonScript := some orig } ∧
    orig ≠ cur := by
  have hchk : checkInvalidation asm f = (true, some orig) := by
    simp [checkInvalidation, hb, hm, hcur, hstale, horig]
  exact ⟨hchk, by simp [markIonJSFrameArtifacts, hchk], Ne.symm hdiff⟩

/-- Witness for C1: the original artifact occupies code `[0,100]`, the
recompiled current artifact occupies `[200,300]`, the frame's return
address is 50, and the int32 before it stores offset `-8`. -/
theorem c1_invalidated_frame_marking_witness :
    checkInvalidation ⟨fun _ => -8, fun _ => ⟨1, 0, 100⟩⟩
        ⟨ExecutionMode.SequentialExecution, false, ⟨0, 0, 0⟩,
         ⟨some ⟨2, 200, 100⟩, none⟩, 50⟩ = (true, some ⟨1, 0, 100⟩) ∧
    markIonJSFrameArtifacts ⟨fun _ => -8, fun _ => ⟨1, 0, 100⟩⟩
        ⟨ExecutionMode.SequentialExecution, false, ⟨0, 0, 0⟩,
         ⟨some ⟨2, 200, 100⟩, none⟩, 50⟩
      = { tracedIonScript := some ⟨1, 0, 100⟩,
          safepointIonScript := some ⟨1, 0, 100⟩ } := by
  have h := c1_invalidated_frame_marking ⟨fun _ => -8, fun _ => ⟨1, 0, 100⟩⟩
    ⟨ExecutionMode.SequentialExecution, false, ⟨0, 0, 0⟩,
     ⟨some ⟨2, 200, 100⟩, none⟩, 50⟩ ⟨2, 200, 100⟩ ⟨1, 0, 100⟩
    rfl rfl rfl (by decide) (by decide) (by decide) (by decide)
  exact ⟨h.1, h.2.1⟩

/-- **C7 counterexample.** The claim fails as stated: `checkInvalidation`
tests the execution mode only on its non-bailout path.  On a bailout frame
the check compares the activation's recorded bailout artifact with the
callee's current artifact regardless of mode, so an iterator in parallel
mode positioned on a bailout frame whose script now holds a different
artifact reports an invalidation. -/
theorem c7_parallel_counterexample :
    (checkInvalidation ⟨fun _ => 0, fun _ => ⟨0, 0, 0⟩⟩
        ⟨ExecutionMode.ParallelExecution, true, ⟨1, 0, 10⟩,
         ⟨some ⟨2, 100, 10⟩, none⟩, 50⟩).1 = true := by
  decide

/-- **C7 (amended).** For every non-bailout frame inspected by an iterator
in parallel execution mode, `checkInvalidation` reports no invalidation
(it returns false and leaves the out-parameter untouched); bailout frames
instead compare the activation's recorded bailout artifact with the
callee's current artifact regardless of mode. -/
theorem c7_parallel_no_invalidation (asm : AsmMem) (f : InvFrameCtx)
    (hm : f.mode = ExecutionMode.ParallelExecution)
    (hb : f.isBailout = false) :
    checkInvalidation asm f = (false, none) := by
  simp [checkInvalidation, hb, hm]

/-- Witness for C7 at a concrete parallel-mode optimized frame. -/
theorem c7_parallel_no_invalidation_witness :
    checkInvalidation ⟨fun _ => 0, fun _ => ⟨0, 0, 0⟩⟩
        ⟨ExecutionMode.ParallelExecution, false, ⟨1, 0, 10⟩,
         ⟨some ⟨2, 100, 10⟩, none⟩, 50⟩ = (false, none) :=
  c7_parallel_no_invalidation ⟨fun _ => 0, fun _ => ⟨0, 0, 0⟩⟩
    ⟨ExecutionMode.ParallelExecution, false, ⟨1, 0, 10⟩,
     ⟨some ⟨2, 100, 10⟩, none⟩, 50⟩ rfl rfl

end JitVerify
